import Mathlib

/-!
# Verification development for the `forge verify-bytecode` pipeline

Shallow embedding of `src/crates/verify/src/bytecode.rs`
(`VerifyBytecodeArgs::run`).  External collaborators (RPC provider,
Etherscan-style provenance service, ABI encoder, EVM executor) are modelled
as deterministic oracle functions bundled in a `World`; the pipeline itself
is translated statement by statement.  The computation runs in a monad that
threads the list of observable replay/network actions (the trace) and
propagates fatal errors and Rust panics, keeping the trace accumulated so
far even on an early abort, so that properties of the form "no replay was
executed before the failure" are expressible.
-/

set_option maxRecDepth 4096

/-- Byte strings are lists of byte values. -/
abbrev Bytes := List Nat

/-- 20-byte addresses, modelled as their numeric value. -/
abbrev Address := Nat

/-- `foundry_evm::constants::DEFAULT_CREATE2_DEPLOYER` (0x4e59b44847b379578588920cA78FbF26c0B4956C). -/
def DEFAULT_CREATE2_DEPLOYER : Address := 0x4e59b44847b379578588920cA78FbF26c0B4956C

/-- `alloy_rpc_types::BlockNumberOrTag` (the tags relevant to the pipeline). -/
inductive BlockNumberOrTag where
  | Number (n : Nat)
  | Latest
  | Earliest
  | Pending
  deriving DecidableEq, Repr

/-- `alloy_rpc_types::BlockId`. -/
inductive BlockId where
  | Number (t : BlockNumberOrTag)
  | Hash (h : Nat)
  deriving DecidableEq, Repr

/-- `utils::BytecodeType`: which bytecode kind a result refers to. -/
inductive BytecodeType where
  | Creation
  | Runtime
  deriving DecidableEq, Repr

/-- `BytecodeType::is_creation`. -/
def BytecodeType.is_creation : BytecodeType → Bool
  | .Creation => true
  | .Runtime => false

/-- `BytecodeType.is_runtime`. -/
def BytecodeType.is_runtime : BytecodeType → Bool
  | .Creation => false
  | .Runtime => true

/-- `self.ignore.is_some_and(p)` on the optional ignore flag. -/
def ignoreIsSomeAnd (ig : Option BytecodeType) (p : BytecodeType → Bool) : Bool :=
  match ig with
  | some b => p b
  | none => false

/-- The spec's MatchType without its `None` case; the source passes
`Option<match kind>` around, `none` standing for the spec's `None`. -/
inductive BytecodeMatchKind where
  | Exact
  | Partial
  deriving DecidableEq, Repr

/-- Creation provenance data: `{transaction_hash, contract_creator}`. -/
structure CreationData where
  transaction_hash : Nat
  contract_creator : Address
  deriving DecidableEq, Repr

/-- Outcome of the provenance call `contract_creation_data(address)`. -/
inductive ProvenanceResult where
  | found (data : CreationData)
  | notFound
  | transportError (msg : String)
  deriving DecidableEq, Repr

/-- A transaction as the pipeline reads and rewrites it.  The source field
`from` is called `sender` here because `from` is a Lean keyword. -/
structure Transaction where
  sender : Address
  «to» : Option Address
  input : Bytes
  nonce : Nat
  block_number : Option Nat
  gas : Nat
  gas_price : Option Nat
  max_fee_per_gas : Option Nat
  deriving DecidableEq, Repr

/-- A transaction receipt (the fields the pipeline inspects). -/
structure Receipt where
  «to» : Option Address
  contract_address : Option Address
  deriving DecidableEq, Repr

/-- Block header fields copied into the replay environment. -/
structure BlockHeader where
  timestamp : Nat
  miner : Address
  difficulty : Nat
  mix_hash : Option Nat
  base_fee_per_gas : Option Nat
  gas_limit : Nat
  deriving DecidableEq, Repr

/-- An RPC block. -/
structure Block where
  header : BlockHeader
  deriving DecidableEq, Repr

/-- One item of the Etherscan `contract_source_code` response.  The
`evm_version` accessor is fallible in the source (`evm_version()?`), so it is
stored as an `Except`. -/
structure SourceCodeItem where
  contract_name : String
  constructor_arguments : Bytes
  evm_version : Except String (Option String)

/-- A declared constructor in the artifact ABI; only the parameter list is
consumed (its length, and the types fed to the ABI encoder). -/
structure Constructor where
  inputs : List String
  deriving DecidableEq, Repr

/-- The artifact ABI part the pipeline reads. -/
structure Abi where
  constructor : Option Constructor
  deriving DecidableEq, Repr

/-- The locally built artifact: `bytecode` is the creation bytecode after
`into_bytes()` (`none` when the bytecode is unlinked or absent). -/
structure Artifact where
  bytecode : Option Bytes
  abi : Option Abi
  deriving DecidableEq, Repr

/-- Account info as returned by the executor backend (`basic`). -/
structure AccountInfo where
  code : Option Bytes
  deriving DecidableEq, Repr

/-- The block part of the replay environment (`env.block`). -/
structure BlockEnv where
  number : Nat
  timestamp : Nat
  coinbase : Address
  difficulty : Nat
  prevrandao : Option Nat
  basefee : Nat
  gas_limit : Nat
  deriving DecidableEq, Repr

/-- The replay environment (only its block part is mutated by the pipeline;
the transaction part is installed by `configure_tx_env`, which the trace
records by carrying the configured transaction alongside the environment). -/
structure Env where
  block : BlockEnv
  deriving DecidableEq, Repr

/-- One emitted verification result (`utils::JsonResult`): the bytecode kind
and the match, `none` standing for the spec's MatchType `None`. -/
structure JsonResult where
  bytecode_type : BytecodeType
  match_type : Option BytecodeMatchKind
  deriving DecidableEq, Repr

/-- How a run ends abnormally: a fatal `eyre` error (`bail`/`?`), or a Rust
panic (out-of-bounds slice, `unwrap` on `None`). -/
inductive RunError where
  | fatal (msg : String)
  | panicked (msg : String)
  deriving DecidableEq, Repr

/-- Observable actions of a run: network lookups tied to the creation
transaction, fork creation, and executions performed on the fork. -/
inductive RunAction where
  | txByHash (h : Nat)
  | receiptByHash (h : Nat)
  | forkAt (blockNumber : Nat)
  | nonceQuery (addr : Address) (blockNumber : Nat)
  | deployCreate2Deployer
  | execDeploy (env : Env) (tx : Transaction)
  | execTransact (env : Env) (tx : Transaction)
  deriving DecidableEq, Repr

/-- The verification monad: threads the action trace, and keeps the trace
accumulated so far when the run aborts. -/
def VerifyM (α : Type) : Type := List RunAction → Except RunError α × List RunAction

/-- Monadic return for `VerifyM`. -/
def VerifyM.pure (a : α) : VerifyM α := fun t => (Except.ok a, t)

/-- Monadic bind for `VerifyM`: an error short-circuits but keeps the trace. -/
def VerifyM.bind (x : VerifyM α) (f : α → VerifyM β) : VerifyM β := fun t =>
  match x t with
  | (Except.ok a, t1) => f a t1
  | (Except.error e, t1) => (Except.error e, t1)

instance : Monad VerifyM where
  pure := VerifyM.pure
  bind := VerifyM.bind

/-- Abort the run with an error. -/
def throwE (e : RunError) : VerifyM α := fun t => (Except.error e, t)

/-- Record one observable action. -/
def record (a : RunAction) : VerifyM Unit := fun t => (Except.ok (), t ++ [a])

/-- Lift an already-computed `Except` outcome. -/
def liftE (x : Except RunError α) : VerifyM α := fun t => (x, t)

/-- Lift a fallible collaborator call, turning its failure into a fatal
error (the `?` operator over `eyre::Result`). -/
def tryCall (x : Except String α) : VerifyM α := fun t =>
  (match x with
   | Except.ok a => Except.ok a
   | Except.error e => Except.error (RunError.fatal e), t)

/-- Rust slice `b[i..]`: panics when `i` is past the end. -/
def rustSliceFrom (b : Bytes) (i : Nat) : VerifyM Bytes :=
  if i ≤ b.length then VerifyM.pure (b.drop i)
  else throwE (RunError.panicked "range start index out of range for slice")

/-- Rust slice `b[..i]`: panics when `i` is past the end. -/
def rustSliceTo (b : Bytes) (i : Nat) : VerifyM Bytes :=
  if i ≤ b.length then VerifyM.pure (b.take i)
  else throwE (RunError.panicked "range end index out of range for slice")

/-- `Address::from_slice`, big-endian byte interpretation. -/
def addressFromSlice (b : Bytes) : Address :=
  b.foldl (fun acc x => acc * 256 + x) 0

/-- The RPC provider oracle (`alloy_provider::Provider` calls the pipeline
makes).  `get_code_at` takes the optional block id the call is pinned to. -/
structure ProviderWorld where
  get_code_at : Address → Option Nat → Except String Bytes
  get_transaction_by_hash : Nat → Except String (Option Transaction)
  get_transaction_receipt : Nat → Except String (Option Receipt)
  get_block : Nat → Except String (Option Block)
  get_transaction_count : Address → Nat → Except String Nat

/-- The Etherscan-style provenance oracle. -/
structure EtherscanWorld where
  contract_creation_data : Address → ProvenanceResult
  contract_source_code : Address → Except String (List SourceCodeItem)

/-- The EVM executor oracle: the deterministic outcomes of executions on the
fork.  `fork_env` is the environment `get_fork_material` builds for a given
fork block, `deploy_address` the address `deploy_with_env` reports,
`transact_result` the raw result bytes of `transact_with_env`, and `basic`
the backend account lookup after state was committed. -/
structure ExecutorWorld where
  fork_env : Nat → Env
  deploy_address : Transaction → Address
  transact_result : Transaction → Bytes
  basic : Address → Option AccountInfo

/-- All collaborators of one run, plus the locally built artifact (the
compiler/artifact provider is an external collaborator; `artifact` is the
outcome of `build_using_cache` / `build_project`, `Except.error` when the
build fails) and the bytecode matcher
(`utils::match_bytecodes(local, onchain, constructor_args, is_runtime)`,
an external primitive, kept as an oracle). -/
structure World where
  provider : ProviderWorld
  etherscan : EtherscanWorld
  exec : ExecutorWorld
  artifact : Except String Artifact
  encode_args : List String → List String → Except String Bytes
  match_bytecodes : Bytes → Bytes → Bytes → Bool → Option BytecodeMatchKind

/-- The CLI arguments the pipeline consumes.  `constructor_args_path` holds
the typed argument list `read_constructor_args_file` would return for the
given path; `encoded_constructor_args` holds the hex-decoded bytes of the
`--encoded-constructor-args` value (hex decoding is a CLI-boundary
collaborator). -/
structure VerifyBytecodeArgs where
  address : Address
  contract_name : String
  block : Option BlockId
  constructor_args : Option (List String)
  encoded_constructor_args : Option Bytes
  constructor_args_path : Option (List String)
  ignore : Option BytecodeType

/-- Modelled from the spec: `crate::utils::maybe_predeploy_contract` is not
under src/.  Per the spec (section 4.1), absence of creation data classifies
the contract as a predeploy rather than erroring, while transport/protocol
failures remain fatal. -/
def maybe_predeploy_contract (r : ProvenanceResult) :
    Except RunError (Option CreationData × Bool) :=
  match r with
  | .found d => .ok (some d, false)
  | .notFound => .ok (none, true)
  | .transportError e => .error (.fatal e)

/-- Modelled from the spec: `crate::utils::print_result` is not under src/.
Per the spec (sections 3 and 6) it emits one `VerificationResult` record per
bytecode kind evaluated, which this model renders as appending to the
accumulated result list. -/
def print_result (results : List JsonResult) (m : Option BytecodeMatchKind)
    (t : BytecodeType) : List JsonResult :=
  results ++ [⟨t, m⟩]

/-- Lines 203-208 of the source: the user-supplied typed argument list, read
from the args file when a path is given, otherwise from `--constructor-args`
(the two are mutually exclusive at the CLI level). -/
def userTypedArgs (args : VerifyBytecodeArgs) : Option (List String) :=
  match args.constructor_args_path with
  | some fileArgs => some fileArgs
  | none => args.constructor_args

/-- Lines 209-224 of the source: validate and ABI-encode a user-supplied
typed argument list against the artifact's declared constructor.  When the
ABI declares no constructor the supplied list is ignored and the empty byte
string is produced. -/
def encodeProvidedArgs (w : World) (artifact : Artifact)
    (argList : List String) : Except RunError Bytes :=
  match artifact.abi.bind (fun abi => abi.constructor) with
  | some ctor =>
    if ctor.inputs.length ≠ argList.length then
      .error (.fatal "Mismatch of constructor arguments length")
    else
      match w.encode_args ctor.inputs argList with
      | .ok enc => .ok enc
      | .error e => .error (.fatal e)
  | none => .ok []

/-- Lines 202-225 of the source: the resolved explicit user source of
constructor arguments, typed args (file or list) taking precedence over the
pre-encoded hex bytes via `.or(...)`. -/
def providedConstructorArgs (args : VerifyBytecodeArgs) (w : World)
    (artifact : Artifact) : Except RunError (Option Bytes) :=
  match userTypedArgs args with
  | some argList =>
    match encodeProvidedArgs w artifact argList with
    | .ok enc => .ok (some enc)
    | .error e => .error e
  | none => .ok args.encoded_constructor_args

/-- Lines 396-414 of the source (the `some` case folds in the equivalent
assignment already performed at lines 227-229): the final constructor-arg
bytes.  Without an explicit user source, the provenance-reported bytes are
re-derived as the tail of the on-chain creation input exactly when that
input does not end with them and is at least as long as the local creation
bytecode; the slice `maybe_creation_code[local_bytecode.len()..]` is guarded
by that length test, so `List.drop` renders it. -/
def resolveConstructorArgs (provided : Option Bytes)
    (etherscanArgs maybe_creation_code local_bytecode : Bytes) : Bytes :=
  match provided with
  | some p => p
  | none =>
    if ¬ (etherscanArgs.isSuffixOf maybe_creation_code) then
      if local_bytecode.length ≤ maybe_creation_code.length then
        maybe_creation_code.drop local_bytecode.length
      else
        etherscanArgs
    else
      etherscanArgs

/-- Lines 281-287 and 504-511 of the source (the same header copy appears
in both the predeploy and the replay path): copy the fetched block header
into the synthetic environment so that op-codes reading block context
observe period-accurate values. -/
def applyHeaderToEnv (env : Env) (b : Block) : Env :=
  { env with block := { env.block with
      timestamp := b.header.timestamp,
      coinbase := b.header.miner,
      difficulty := b.header.difficulty,
      prevrandao := some (b.header.mix_hash.getD 0),
      basefee := b.header.base_fee_per_gas.getD 0,
      gas_limit := b.header.gas_limit } }

/-- Lines 272-279 of the source: the synthetic genesis deployment
transaction, sent by the synthetic deployer `Address::with_last_byte(0x1)`
with the local creation payload as input. -/
def baseGenesisTransaction (lv : Bytes) : Transaction :=
  { sender := 0x1, «to» := none, input := lv, nonce := 0, block_number := none,
    gas := 0, gas_price := none, max_fee_per_gas := none }

/-- Lines 289-293 of the source: gas parameters of the genesis transaction
taken from the genesis header. -/
def applyHeaderToGenesisTx (tx : Transaction) (b : Block) : Transaction :=
  { tx with
    max_fee_per_gas := some (b.header.base_fee_per_gas.getD 0),
    gas := b.header.gas_limit,
    gas_price := some (b.header.base_fee_per_gas.getD 0) }

/-- The genesis transaction actually deployed, after the (optional) genesis
header was applied (lines 281-294). -/
def genesisTransactionFor (lv : Bytes) (gb : Option Block) : Transaction :=
  match gb with
  | some b => applyHeaderToGenesisTx (baseGenesisTransaction lv) b
  | none => baseGenesisTransaction lv

/-- The environment of the genesis deployment: the fork environment at
block 0 with `env.block.number` forced to 0 (line 268) and the genesis
header applied when the block was found (lines 281-287). -/
def genesisEnvFor (w : World) (gb : Option Block) : Env :=
  let env0 := w.exec.fork_env 0
  let env1 := { env0 with block := { env0.block with number := 0 } }
  match gb with
  | some b => applyHeaderToEnv env1 b
  | none => env1

/-- The environment of the historical replay: the fork environment pinned
at `simulation_block - 1` (line 478) with `env.block.number` set to the
simulation block (line 491) and the historical header applied when the
block was found (lines 504-511). -/
def runtimeEnvFor (w : World) (simulation_block : Nat) (blk : Option Block) : Env :=
  let env0 := w.exec.fork_env (simulation_block - 1)
  let env1 := { env0 with block := { env0.block with number := simulation_block } }
  match blk with
  | some b => applyHeaderToEnv env1 b
  | none => env1

/-- `VerifyBytecodeArgs::run` (lines 118-595 of the source), translated
statement by statement.  Lines 119-141 (config loading, chain detection,
Etherscan client construction) are external setup carrying no pipeline
state and are not modelled; every later step appears in source order. -/
def VerifyBytecodeArgs.run (args : VerifyBytecodeArgs) (w : World) :
    VerifyM (List JsonResult) := do
  -- Lines 143-146: bail when no bytecode exists at the target address.
  let code ← tryCall (w.provider.get_code_at args.address none)
  if code.isEmpty then
    throwE (RunError.fatal "No bytecode found at address")
  -- Line 156: the accumulated result list.
  let json_results : List JsonResult := []
  -- Lines 158-165: creation provenance, predeploy classification.
  let pre ← liftE (maybe_predeploy_contract
    (w.etherscan.contract_creation_data args.address))
  let creationDataOpt := pre.1
  let maybe_predeploy := pre.2
  -- Lines 167-174: source-code lookup and contract-name check.
  let items ← tryCall (w.etherscan.contract_source_code args.address)
  let name := items.head?.map (fun item => item.contract_name)
  if name ≠ some args.contract_name then
    throwE (RunError.fatal "Contract name mismatch")
  -- Lines 176-177: `.unwrap()` on the first item, unreachable after the
  -- name check passed.
  let etherscan_metadata ← match items.head? with
    | some m => pure m
    | none => throwE (RunError.panicked "called Option unwrap on a None value")
  -- Lines 179-187: local artifact from cache or fresh build (external).
  let artifact ← tryCall w.artifact
  -- Lines 189-193: creation bytecode; unlinked bytecode is rejected.
  let local_bytecode ← match artifact.bytecode with
    | some b => pure b
    | none => throwE (RunError.fatal "Unlinked bytecode is not supported for verification")
  -- Lines 195-200: provenance-reported constructor arguments.
  let constructor_args0 ← match items.head? with
    | some item => pure item.constructor_arguments
    | none => throwE (RunError.fatal "No constructor arguments found for contract")
  -- Lines 202-225: resolve the explicit user-supplied argument source.
  let provided_constructor_args ← liftE (providedConstructorArgs args w artifact)
  -- Lines 227-229: an explicit source overrides the provenance bytes.
  let constructor_args := provided_constructor_args.getD constructor_args0
  if maybe_predeploy then
    -- Lines 231-357: predeploy path.
    -- Lines 246-249: append constructor args to the local bytecode.
    let local_bytecode_vec := local_bytecode ++ constructor_args
    -- Lines 251-266: fork at the genesis block; `evm_version()?` may fail.
    let genesis_block_number : Nat := 0
    let _evmVersion ← tryCall etherscan_metadata.evm_version
    record (RunAction.forkAt genesis_block_number)
    -- Lines 268-270: `env.block.number = U256::ZERO`, fetch the genesis block.
    let genesis_block ← tryCall (w.provider.get_block genesis_block_number)
    -- Lines 272-294: synthetic deployer transaction and environment, with
    -- the genesis header fields copied in when the block was found.
    let env2 := genesisEnvFor w genesis_block
    let genesis_transaction := genesisTransactionFor local_bytecode_vec genesis_block
    -- Lines 296-314: configure_tx_env, seed the deployer account, deploy.
    record (RunAction.execDeploy env2 genesis_transaction)
    let deployed_address := w.exec.deploy_address genesis_transaction
    -- Lines 316-332: read back the runtime code from the backend.
    let acct ← match w.exec.basic deployed_address with
      | some a => pure a
      | none => throwE (RunError.fatal "Failed to get runtime code for contract deployed on fork")
    let deployed_bytecode ← match acct.code with
      | some c => pure c
      | none => throwE (RunError.fatal "Bytecode does not exist for contract deployed on fork")
    -- Line 334: on-chain runtime code.
    let onchain_runtime_code ← tryCall (w.provider.get_code_at args.address none)
    -- Lines 336-341: runtime comparison with empty constructor args.
    let match_type := w.match_bytecodes deployed_bytecode onchain_runtime_code [] true
    -- Lines 343-356: emit the single Runtime result and return.
    pure (print_result json_results match_type BytecodeType.Runtime)
  else
    -- Line 359: `.unwrap()`, safe because maybe_predeploy is false.
    let creation_data ← match creationDataOpt with
      | some d => pure d
      | none => throwE (RunError.panicked "called Option unwrap on a None value")
    -- Lines 361-369: fetch the creation transaction.
    record (RunAction.txByHash creation_data.transaction_hash)
    let transaction ← match w.provider.get_transaction_by_hash creation_data.transaction_hash with
      | .error _ => throwE (RunError.fatal "Could not fetch transaction from RPC")
      | .ok none => throwE (RunError.fatal "Transaction not found for hash")
      | .ok (some tx) => pure tx
    -- Lines 370-381: fetch the creation receipt.
    record (RunAction.receiptByHash creation_data.transaction_hash)
    let receipt ← match w.provider.get_transaction_receipt creation_data.transaction_hash with
      | .error _ => throwE (RunError.fatal "Could not fetch transaction receipt from RPC")
      | .ok none => throwE (RunError.fatal "Receipt not found for transaction hash")
      | .ok (some r) => pure r
    -- Lines 383-394: extract the creation code from the tx input; the
    -- deterministic-deployer case slices off the 32-byte salt.
    let maybe_creation_code ←
      if receipt.«to» = none ∧ receipt.contract_address = some args.address then
        pure transaction.input
      else if receipt.«to» = some DEFAULT_CREATE2_DEPLOYER then
        rustSliceFrom transaction.input 32
      else
        throwE (RunError.fatal "Could not extract the creation code for contract")
    -- Lines 396-414: final constructor-arg resolution.
    let constructor_args2 := resolveConstructorArgs provided_constructor_args
      constructor_args0 maybe_creation_code local_bytecode
    -- Lines 416-419: the deployable creation payload.
    let local_bytecode_vec := local_bytecode ++ constructor_args2
    -- Lines 421-456: creation check unless ignored; a None match emits a
    -- synthetic Runtime None result and returns early (line 454).
    let creationStep : Option (List JsonResult) × List JsonResult :=
      if ignoreIsSomeAnd args.ignore BytecodeType.is_creation = false then
        let match_type := w.match_bytecodes local_bytecode_vec
          maybe_creation_code constructor_args2 false
        let jr := print_result json_results match_type BytecodeType.Creation
        if match_type.isNone then
          (some (print_result jr none BytecodeType.Runtime), jr)
        else
          (none, jr)
      else
        (none, json_results)
    match creationStep.1 with
    | some finalResults => pure finalResults
    | none =>
      let json_results1 := creationStep.2
      if ignoreIsSomeAnd args.ignore BytecodeType.is_runtime = false then
        -- Lines 460-474: locate the simulation block.
        let simulation_block ← match args.block with
          | some (BlockId.Number (BlockNumberOrTag.Number b)) => pure b
          | some _ => throwE (RunError.fatal "Invalid block number")
          | none => do
            record (RunAction.txByHash creation_data.transaction_hash)
            let tx2 ← match w.provider.get_transaction_by_hash creation_data.transaction_hash with
              | .error _ => throwE (RunError.fatal "Could not fetch transaction from RPC")
              | .ok none => throwE (RunError.fatal "Transaction not found for hash")
              | .ok (some tx) => pure tx
            match tx2.block_number with
            | some bn => pure bn
            | none => throwE (RunError.fatal "Failed to get block number of the contract creation tx")
        -- Lines 476-490: `evm_version()?`, then fork at simulation_block - 1.
        let _evmVersion ← tryCall etherscan_metadata.evm_version
        record (RunAction.forkAt (simulation_block - 1))
        -- Lines 491-492: `env.block.number = U256::from(simulation_block)`,
        -- fetch the simulation block.
        let block ← tryCall (w.provider.get_block simulation_block)
        -- Lines 494-502: nonce as of the previous block, overriding the tx nonce.
        record (RunAction.nonceQuery transaction.sender (simulation_block - 1))
        let prev_block_nonce ← tryCall
          (w.provider.get_transaction_count transaction.sender (simulation_block - 1))
        let transaction1 := { transaction with nonce := prev_block_nonce }
        -- Lines 504-511: copy the historical header fields into env.
        let env2 := runtimeEnvFor w simulation_block block
        -- Lines 513-525: replace the input with the local creation payload;
        -- the deterministic-deployer path keeps the original 32-byte salt
        -- and first deploys the deployer contract into the fork.
        let transaction2 ← match transaction1.«to» with
          | some toAddr =>
            if toAddr = DEFAULT_CREATE2_DEPLOYER then do
              let salt ← rustSliceTo transaction1.input 32
              let tx := { transaction1 with input := salt ++ local_bytecode_vec }
              record RunAction.deployCreate2Deployer
              pure tx
            else
              pure transaction1
          | none => pure { transaction1 with input := local_bytecode_vec }
    -- Line 527: configure_tx_env; the configured transaction is the one
    -- carried by the execution action recorded below.
        -- Lines 534-548: execute the replay.
        let contract_address ← match transaction2.«to» with
          | some toAddr => do
            if toAddr ≠ DEFAULT_CREATE2_DEPLOYER then
              throwE (RunError.fatal "Transaction to address is not the default create2 deployer")
            record (RunAction.execTransact env2 transaction2)
            let result := w.exec.transact_result transaction2
            if result.length ≠ 20 then
              throwE (RunError.fatal "Failed to deploy contract on fork: call result is not exactly 20 bytes")
            pure (addressFromSlice result)
          | none => do
            record (RunAction.execDeploy env2 transaction2)
            pure (w.exec.deploy_address transaction2)
        -- Lines 550-566: read back the runtime code from the backend.
        let acct ← match w.exec.basic contract_address with
          | some a => pure a
          | none => throwE (RunError.fatal "Failed to get runtime code for contract deployed on fork")
        let fork_runtime_code ← match acct.code with
          | some c => pure c
          | none => throwE (RunError.fatal "Bytecode does not exist for contract deployed on fork")
        -- Lines 568-571: on-chain runtime code at the simulation block.
        let onchain_runtime_code ← tryCall
          (w.provider.get_code_at args.address (some simulation_block))
        -- Lines 573-588: runtime comparison and result emission.
        let match_type := w.match_bytecodes fork_runtime_code
          onchain_runtime_code constructor_args2 true
        pure (print_result json_results1 match_type BytecodeType.Runtime)
      else
        pure json_results1

/-- One whole verification run from the empty trace: the outcome (fatal
error, panic, or the emitted result list) together with the action trace
accumulated up to the point the run ended. -/
def runVerify (args : VerifyBytecodeArgs) (w : World) :
    Except RunError (List JsonResult) × List RunAction :=
  VerifyBytecodeArgs.run args w []

/-! Reduction lemmas for the verification monad, used to unfold a run
step by step in the proofs below. -/

@[simp] theorem VerifyM.bind_eq (x : VerifyM α) (f : α → VerifyM β) :
    x >>= f = VerifyM.bind x f := rfl

@[simp] theorem VerifyM.pure_eq (a : α) :
    (Pure.pure a : VerifyM α) = VerifyM.pure a := rfl

@[simp] theorem VerifyM.map_eq (f : α → β) (x : VerifyM α) :
    f <$> x = VerifyM.bind x (fun a => VerifyM.pure (f a)) := by
  funext t
  show (VerifyM.bind x (fun a => VerifyM.pure (f a))) t = _
  rfl

@[simp] theorem VerifyM.bind_assoc (x : VerifyM α) (f : α → VerifyM β)
    (g : β → VerifyM γ) :
    VerifyM.bind (VerifyM.bind x f) g =
      VerifyM.bind x (fun a => VerifyM.bind (f a) g) := by
  funext t
  unfold VerifyM.bind
  match h : x t with
  | (Except.ok a, t1) => simp [h]
  | (Except.error e, t1) => simp [h]

@[simp] theorem VerifyM.pure_bind (a : α) (f : α → VerifyM β) :
    VerifyM.bind (VerifyM.pure a) f = f a := by
  funext t
  rfl

@[simp] theorem throwE_bind (e : RunError) (f : α → VerifyM β) :
    VerifyM.bind (throwE e) f = throwE e := by
  funext t
  rfl

@[simp] theorem record_bind (a : RunAction) (f : Unit → VerifyM β) :
    VerifyM.bind (record a) f = fun t => f () (t ++ [a]) := by
  funext t
  rfl

@[simp] theorem tryCall_ok (a : α) :
    tryCall (Except.ok a) = VerifyM.pure a := rfl

@[simp] theorem tryCall_error (e : String) :
    tryCall (α := α) (Except.error e) = throwE (RunError.fatal e) := rfl

@[simp] theorem liftE_ok (a : α) :
    liftE (Except.ok a) = VerifyM.pure a := rfl

@[simp] theorem liftE_error (e : RunError) :
    liftE (α := α) (Except.error e) = throwE e := rfl

@[simp] theorem VerifyM.pure_apply (a : α) (t : List RunAction) :
    VerifyM.pure a t = (Except.ok a, t) := rfl

@[simp] theorem throwE_apply (e : RunError) (t : List RunAction) :
    throwE (α := α) e t = (Except.error e, t) := rfl

/-! ## Claim theorems -/

/-- C2: for every combination of constructor-argument sources, the resolved
`ConstructorArgs` is chosen by a deterministic precedence: a user-supplied
typed argument list (including one read from a file, which is what
`userTypedArgs` resolves) wins over user-supplied pre-encoded hex bytes,
which win over the provenance-reported bytes (the explicit sources being
`none` makes `providedConstructorArgs` yield `none`, so the provenance
bytes remain the default); and whenever either explicit user source is
supplied, the tail re-derivation step is never applied to it. -/
theorem constructor_args_precedence (args : VerifyBytecodeArgs) (w : World)
    (artifact : Artifact) :
    (∀ argList enc, userTypedArgs args = some argList →
      encodeProvidedArgs w artifact argList = Except.ok enc →
      providedConstructorArgs args w artifact = Except.ok (some enc)) ∧
    (userTypedArgs args = none →
      providedConstructorArgs args w artifact =
        Except.ok args.encoded_constructor_args) ∧
    (∀ p etherscanArgs mcc lb,
      resolveConstructorArgs (some p) etherscanArgs mcc lb = p) := by
  refine ⟨?_, ?_, ?_⟩
  · intro argList enc h_typed h_enc
    simp [providedConstructorArgs, h_typed, h_enc]
  · intro h_typed
    simp [providedConstructorArgs, h_typed]
  · intro p etherscanArgs mcc lb
    rfl

/-- C3: with no explicit user-supplied constructor arguments, the
provenance-reported argument bytes are replaced by the tail of the on-chain
creation input beyond the local creation bytecode's length if and only if
the on-chain creation input does not end with the provenance-reported bytes
and the on-chain input's length is at least the local creation bytecode's
length; in every other case the provenance-reported bytes are kept
byte-identical. -/
theorem rederivation_characterization
    (etherscanArgs maybe_creation_code local_bytecode : Bytes) :
    resolveConstructorArgs none etherscanArgs maybe_creation_code local_bytecode =
      if ¬ (etherscanArgs.isSuffixOf maybe_creation_code) ∧
          local_bytecode.length ≤ maybe_creation_code.length then
        maybe_creation_code.drop local_bytecode.length
      else
        etherscanArgs := by
  simp only [resolveConstructorArgs]
  by_cases h1 : etherscanArgs.isSuffixOf maybe_creation_code
  · simp [h1]
  · by_cases h2 : local_bytecode.length ≤ maybe_creation_code.length
    · simp [h1, h2]
    · simp [h1, h2]

/-- C9: if the user supplies a typed constructor-argument list (or an args
file) but the local artifact's ABI declares no constructor, the supplied
arguments are not validated and not encoded: the resolved `ConstructorArgs`
becomes the empty byte sequence with no error raised, regardless of how
many values the user supplied, and the empty explicit source is exempt from
re-derivation. -/
theorem typed_args_without_constructor (args : VerifyBytecodeArgs) (w : World)
    (artifact : Artifact) (argList : List String)
    (h_typed : userTypedArgs args = some argList)
    (h_ctor : artifact.abi.bind (fun abi => abi.constructor) = none) :
    providedConstructorArgs args w artifact = Except.ok (some []) ∧
    (∀ etherscanArgs mcc lb,
      resolveConstructorArgs (some []) etherscanArgs mcc lb = ([] : Bytes)) := by
  constructor
  · simp [providedConstructorArgs, encodeProvidedArgs, h_typed, h_ctor]
  · intro etherscanArgs mcc lb
    rfl

/-- C6: for every run where the user supplies a typed constructor-argument
list whose length differs from the number of parameters declared by the
artifact's constructor ABI, the run aborts with a fatal input error, and
this abort occurs before any replay execution is performed (the action
trace is empty, so no fork was created and nothing was executed). -/
theorem arg_length_mismatch_aborts (args : VerifyBytecodeArgs) (w : World)
    (code : Bytes) (pre : Option CreationData × Bool)
    (item : SourceCodeItem) (rest : List SourceCodeItem) (artifact : Artifact)
    (lb : Bytes) (argList : List String) (ctor : Constructor)
    (h_code : w.provider.get_code_at args.address none = Except.ok code)
    (h_ne : code ≠ [])
    (h_prov : maybe_predeploy_contract
      (w.etherscan.contract_creation_data args.address) = Except.ok pre)
    (h_src : w.etherscan.contract_source_code args.address =
      Except.ok (item :: rest))
    (h_name : item.contract_name = args.contract_name)
    (h_art : w.artifact = Except.ok artifact)
    (h_lb : artifact.bytecode = some lb)
    (h_typed : userTypedArgs args = some argList)
    (h_ctor : artifact.abi.bind (fun abi => abi.constructor) = some ctor)
    (h_len : ctor.inputs.length ≠ argList.length) :
    runVerify args w =
      (Except.error (RunError.fatal "Mismatch of constructor arguments length"),
        []) := by
  simp [runVerify, VerifyBytecodeArgs.run, providedConstructorArgs,
    encodeProvidedArgs, h_code, h_prov, h_src, h_art, h_lb, h_typed, h_ctor,
    h_name, h_len, List.isEmpty_iff, h_ne]

/-- C1: for every verification run in which the creation-code comparison is
performed (non-predeploy, creation kind not ignored) and yields MatchType
None, the emitted result set is exactly the Creation None result followed
by a synthetic Runtime None result, the run terminates normally
(`Except.ok`), and no replay execution is performed: the whole action trace
consists of the two creation-transaction lookups, so no fork was created,
no deployment and no transaction re-execution happened. -/
theorem creation_none_short_circuit (args : VerifyBytecodeArgs) (w : World)
    (code : Bytes) (item : SourceCodeItem) (rest : List SourceCodeItem)
    (artifact : Artifact) (lb : Bytes) (provided : Option Bytes)
    (cd : CreationData) (tx : Transaction) (rc : Receipt) (mcc ca : Bytes)
    (h_code : w.provider.get_code_at args.address none = Except.ok code)
    (h_ne : code ≠ [])
    (h_prov : w.etherscan.contract_creation_data args.address =
      ProvenanceResult.found cd)
    (h_src : w.etherscan.contract_source_code args.address =
      Except.ok (item :: rest))
    (h_name : item.contract_name = args.contract_name)
    (h_art : w.artifact = Except.ok artifact)
    (h_lb : artifact.bytecode = some lb)
    (h_provided : providedConstructorArgs args w artifact = Except.ok provided)
    (h_tx : w.provider.get_transaction_by_hash cd.transaction_hash =
      Except.ok (some tx))
    (h_rc : w.provider.get_transaction_receipt cd.transaction_hash =
      Except.ok (some rc))
    (h_extract :
      (rc.«to» = none ∧ rc.contract_address = some args.address ∧
        mcc = tx.input) ∨
      (rc.«to» = some DEFAULT_CREATE2_DEPLOYER ∧ 32 ≤ tx.input.length ∧
        mcc = tx.input.drop 32))
    (h_ca : resolveConstructorArgs provided item.constructor_arguments mcc lb = ca)
    (h_ignore : ignoreIsSomeAnd args.ignore BytecodeType.is_creation = false)
    (h_match : w.match_bytecodes (lb ++ ca) mcc ca false = none) :
    runVerify args w =
      (Except.ok [⟨BytecodeType.Creation, none⟩, ⟨BytecodeType.Runtime, none⟩],
        [RunAction.txByHash cd.transaction_hash,
         RunAction.receiptByHash cd.transaction_hash]) := by
  rcases h_extract with ⟨h1, h2, h3⟩ | ⟨h1, h2, h3⟩
  · subst h3
    simp [runVerify, VerifyBytecodeArgs.run, maybe_predeploy_contract,
      print_result, h_code, h_prov, h_src, h_name, h_art, h_lb, h_provided,
      h_tx, h_rc, h1, h2, h_ca, h_ignore, h_match, List.isEmpty_iff, h_ne]
  · subst h3
    simp [runVerify, VerifyBytecodeArgs.run, maybe_predeploy_contract,
      print_result, rustSliceFrom, h_code, h_prov, h_src, h_name, h_art,
      h_lb, h_provided, h_tx, h_rc, h1, h2, h_ca, h_ignore, h_match,
      List.isEmpty_iff, h_ne]

/-- C4: for every address for which the provenance service reports no
creation data, the run does not fail on that account: it classifies the
contract as a predeploy, performs no creation-code comparison and no
creation transaction/receipt lookup (the trace holds no transaction or
receipt lookup at all), deploys the locally built creation bytecode with
the resolved constructor args appended as a genesis transaction on a fork
of block 0, and emits exactly one result, of Runtime kind. -/
theorem predeploy_runtime_only (args : VerifyBytecodeArgs) (w : World)
    (code : Bytes) (item : SourceCodeItem) (rest : List SourceCodeItem)
    (artifact : Artifact) (lb : Bytes) (provided : Option Bytes)
    (ev : Option String) (gb : Option Block) (acct : AccountInfo)
    (rcode : Bytes)
    (h_code : w.provider.get_code_at args.address none = Except.ok code)
    (h_ne : code ≠ [])
    (h_prov : w.etherscan.contract_creation_data args.address =
      ProvenanceResult.notFound)
    (h_src : w.etherscan.contract_source_code args.address =
      Except.ok (item :: rest))
    (h_name : item.contract_name = args.contract_name)
    (h_art : w.artifact = Except.ok artifact)
    (h_lb : artifact.bytecode = some lb)
    (h_provided : providedConstructorArgs args w artifact = Except.ok provided)
    (h_evm : item.evm_version = Except.ok ev)
    (h_gb : w.provider.get_block 0 = Except.ok gb)
    (h_basic : w.exec.basic (w.exec.deploy_address
      (genesisTransactionFor (lb ++ provided.getD item.constructor_arguments) gb)) =
      some acct)
    (h_rcode : acct.code = some rcode) :
    runVerify args w =
      (Except.ok [⟨BytecodeType.Runtime, w.match_bytecodes rcode code [] true⟩],
        [RunAction.forkAt 0,
         RunAction.execDeploy (genesisEnvFor w gb)
           (genesisTransactionFor
             (lb ++ provided.getD item.constructor_arguments) gb)]) ∧
    (genesisTransactionFor (lb ++ provided.getD item.constructor_arguments) gb).input =
      lb ++ provided.getD item.constructor_arguments ∧
    (genesisTransactionFor (lb ++ provided.getD item.constructor_arguments) gb).«to» =
      none := by
  refine ⟨?_, ?_, ?_⟩
  · simp [runVerify, VerifyBytecodeArgs.run, maybe_predeploy_contract,
      print_result, h_code, h_prov, h_src, h_name, h_art, h_lb, h_provided,
      h_evm, h_gb, h_basic, h_rcode, List.isEmpty_iff, h_ne]
  · cases gb <;>
      simp [genesisTransactionFor, applyHeaderToGenesisTx, baseGenesisTransaction]
  · cases gb <;>
      simp [genesisTransactionFor, applyHeaderToGenesisTx, baseGenesisTransaction]

/-- C5: for every replay of a creation transaction whose `to` field equals
the canonical deterministic-deployer address, the replayed transaction
input equals the first 32 bytes (the salt) of the original transaction
input, byte-for-byte, followed by the locally reconstructed creation
payload (local creation bytecode with resolved constructor args appended):
the transaction handed to the executor is exactly `tx2`, whose input is
`tx.input.take 32 ++ (local bytecode ++ resolved args)`. -/
theorem create2_salt_preserved (args : VerifyBytecodeArgs) (w : World)
    (code : Bytes) (item : SourceCodeItem) (rest : List SourceCodeItem)
    (artifact : Artifact) (lb : Bytes) (provided : Option Bytes)
    (cd : CreationData) (tx : Transaction) (rc : Receipt) (ca : Bytes)
    (mk : BytecodeMatchKind) (n : Nat) (blk : Option Block) (nonceVal : Nat)
    (ev : Option String) (tx2 : Transaction) (acct : AccountInfo)
    (rcode onchain : Bytes)
    (h_code : w.provider.get_code_at args.address none = Except.ok code)
    (h_ne : code ≠ [])
    (h_prov : w.etherscan.contract_creation_data args.address =
      ProvenanceResult.found cd)
    (h_src : w.etherscan.contract_source_code args.address =
      Except.ok (item :: rest))
    (h_name : item.contract_name = args.contract_name)
    (h_art : w.artifact = Except.ok artifact)
    (h_lb : artifact.bytecode = some lb)
    (h_provided : providedConstructorArgs args w artifact = Except.ok provided)
    (h_tx : w.provider.get_transaction_by_hash cd.transaction_hash =
      Except.ok (some tx))
    (h_rc : w.provider.get_transaction_receipt cd.transaction_hash =
      Except.ok (some rc))
    (h_rcto : rc.«to» = some DEFAULT_CREATE2_DEPLOYER)
    (h_len32 : 32 ≤ tx.input.length)
    (h_ca : resolveConstructorArgs provided item.constructor_arguments
      (tx.input.drop 32) lb = ca)
    (h_ignc : ignoreIsSomeAnd args.ignore BytecodeType.is_creation = false)
    (h_mk : w.match_bytecodes (lb ++ ca) (tx.input.drop 32) ca false = some mk)
    (h_runt : ignoreIsSomeAnd args.ignore BytecodeType.is_runtime = false)
    (hb : args.block = some (BlockId.Number (BlockNumberOrTag.Number n)))
    (h_evm : item.evm_version = Except.ok ev)
    (h_blk : w.provider.get_block n = Except.ok blk)
    (h_nonce : w.provider.get_transaction_count tx.sender (n - 1) =
      Except.ok nonceVal)
    (h_txto : tx.«to» = some DEFAULT_CREATE2_DEPLOYER)
    (h_tx2 : tx2 = { tx with
      nonce := nonceVal, input := tx.input.take 32 ++ (lb ++ ca) })
    (h_res : (w.exec.transact_result tx2).length = 20)
    (h_basic : w.exec.basic (addressFromSlice (w.exec.transact_result tx2)) =
      some acct)
    (h_rcode : acct.code = some rcode)
    (h_onchain : w.provider.get_code_at args.address (some n) =
      Except.ok onchain) :
    runVerify args w =
      (Except.ok [⟨BytecodeType.Creation, some mk⟩,
        ⟨BytecodeType.Runtime, w.match_bytecodes rcode onchain ca true⟩],
       [RunAction.txByHash cd.transaction_hash,
        RunAction.receiptByHash cd.transaction_hash,
        RunAction.forkAt (n - 1),
        RunAction.nonceQuery tx.sender (n - 1),
        RunAction.deployCreate2Deployer,
        RunAction.execTransact (runtimeEnvFor w n blk) tx2]) ∧
    tx2.input = tx.input.take 32 ++ (lb ++ ca) := by
  subst h_tx2
  simp only [h_txto] at h_res h_basic
  refine ⟨?_, rfl⟩
  simp [runVerify, VerifyBytecodeArgs.run, maybe_predeploy_contract,
    print_result, rustSliceFrom, rustSliceTo, h_code, h_prov, h_src, h_name,
    h_art, h_lb, h_provided, h_tx, h_rc, h_rcto, h_len32, h_ca, h_ignc, h_mk,
    h_runt, hb, h_evm, h_blk, h_nonce, h_txto, h_res, h_basic, h_rcode,
    h_onchain, List.isEmpty_iff, h_ne]

/-- C8: for every non-predeploy runtime replay at simulation block `n`
(here the ordinary-creation path, `to = None`; the deterministic-deployer
path is exhibited by the C5 theorem with the same fork and nonce actions),
the fork is pinned to block `n - 1`, and the transaction's nonce field is
overwritten with the sender's transaction count read as of block `n - 1`
(not block `n`: the full trace contains exactly one nonce query, at
`n - 1`) before the transaction is re-executed. -/
theorem replay_nonce_from_previous_block (args : VerifyBytecodeArgs)
    (w : World) (code : Bytes) (item : SourceCodeItem)
    (rest : List SourceCodeItem) (artifact : Artifact) (lb : Bytes)
    (provided : Option Bytes) (cd : CreationData) (tx : Transaction)
    (rc : Receipt) (ca : Bytes) (mk : BytecodeMatchKind) (n : Nat)
    (blk : Option Block) (nonceVal : Nat) (ev : Option String)
    (txD : Transaction) (acct : AccountInfo) (rcode onchain : Bytes)
    (h_code : w.provider.get_code_at args.address none = Except.ok code)
    (h_ne : code ≠ [])
    (h_prov : w.etherscan.contract_creation_data args.address =
      ProvenanceResult.found cd)
    (h_src : w.etherscan.contract_source_code args.address =
      Except.ok (item :: rest))
    (h_name : item.contract_name = args.contract_name)
    (h_art : w.artifact = Except.ok artifact)
    (h_lb : artifact.bytecode = some lb)
    (h_provided : providedConstructorArgs args w artifact = Except.ok provided)
    (h_tx : w.provider.get_transaction_by_hash cd.transaction_hash =
      Except.ok (some tx))
    (h_rc : w.provider.get_transaction_receipt cd.transaction_hash =
      Except.ok (some rc))
    (h_rcto : rc.«to» = none)
    (h_rcca : rc.contract_address = some args.address)
    (h_ca : resolveConstructorArgs provided item.constructor_arguments
      tx.input lb = ca)
    (h_ignc : ignoreIsSomeAnd args.ignore BytecodeType.is_creation = false)
    (h_mk : w.match_bytecodes (lb ++ ca) tx.input ca false = some mk)
    (h_runt : ignoreIsSomeAnd args.ignore BytecodeType.is_runtime = false)
    (hb : args.block = some (BlockId.Number (BlockNumberOrTag.Number n)))
    (h_evm : item.evm_version = Except.ok ev)
    (h_blk : w.provider.get_block n = Except.ok blk)
    (h_nonce : w.provider.get_transaction_count tx.sender (n - 1) =
      Except.ok nonceVal)
    (h_txto : tx.«to» = none)
    (h_txD : txD = { tx with
      nonce := nonceVal, input := lb ++ ca })
    (h_basic : w.exec.basic (w.exec.deploy_address txD) = some acct)
    (h_rcode : acct.code = some rcode)
    (h_onchain : w.provider.get_code_at args.address (some n) =
      Except.ok onchain) :
    runVerify args w =
      (Except.ok [⟨BytecodeType.Creation, some mk⟩,
        ⟨BytecodeType.Runtime, w.match_bytecodes rcode onchain ca true⟩],
       [RunAction.txByHash cd.transaction_hash,
        RunAction.receiptByHash cd.transaction_hash,
        RunAction.forkAt (n - 1),
        RunAction.nonceQuery tx.sender (n - 1),
        RunAction.execDeploy (runtimeEnvFor w n blk) txD]) ∧
    txD.nonce = nonceVal := by
  subst h_txD
  simp only [h_txto] at h_basic
  refine ⟨?_, rfl⟩
  simp [runVerify, VerifyBytecodeArgs.run, maybe_predeploy_contract,
    print_result, h_code, h_prov, h_src, h_name, h_art, h_lb, h_provided,
    h_tx, h_rc, h_rcto, h_rcca, h_ca, h_ignc, h_mk, h_runt, hb, h_evm,
    h_blk, h_nonce, h_txto, h_basic, h_rcode, h_onchain,
    List.isEmpty_iff, h_ne]

set_option maxHeartbeats 1000000 in
/-- C7: for every run that reaches the runtime check, the simulation block
is determined either from a user-supplied literal block number `nb` (fork
and nonce read then happen at `nb - 1`) or, when no block is supplied, from
the creation transaction's own block number `bn` (after one extra
transaction fetch); any user-supplied block reference that is not a literal
block number makes the run abort with the fatal input error
"Invalid block number".  The provider oracles are assumed to answer
uniformly at every block so that the conclusion can name the replayed
values in all three cases. -/
theorem simulation_block_determination (args : VerifyBytecodeArgs)
    (w : World) (code : Bytes) (item : SourceCodeItem)
    (rest : List SourceCodeItem) (artifact : Artifact) (lb : Bytes)
    (provided : Option Bytes) (cd : CreationData) (tx : Transaction)
    (rc : Receipt) (ca : Bytes) (mk : BytecodeMatchKind) (bn : Nat)
    (blk : Option Block) (nonceVal : Nat) (ev : Option String)
    (txD : Transaction) (acct : AccountInfo) (rcode : Bytes)
    (h_code : ∀ bid, w.provider.get_code_at args.address bid = Except.ok code)
    (h_ne : code ≠ [])
    (h_prov : w.etherscan.contract_creation_data args.address =
      ProvenanceResult.found cd)
    (h_src : w.etherscan.contract_source_code args.address =
      Except.ok (item :: rest))
    (h_name : item.contract_name = args.contract_name)
    (h_art : w.artifact = Except.ok artifact)
    (h_lb : artifact.bytecode = some lb)
    (h_provided : providedConstructorArgs args w artifact = Except.ok provided)
    (h_tx : w.provider.get_transaction_by_hash cd.transaction_hash =
      Except.ok (some tx))
    (h_rc : w.provider.get_transaction_receipt cd.transaction_hash =
      Except.ok (some rc))
    (h_rcto : rc.«to» = none)
    (h_rcca : rc.contract_address = some args.address)
    (h_ca : resolveConstructorArgs provided item.constructor_arguments
      tx.input lb = ca)
    (h_ignc : ignoreIsSomeAnd args.ignore BytecodeType.is_creation = false)
    (h_mk : w.match_bytecodes (lb ++ ca) tx.input ca false = some mk)
    (h_runt : ignoreIsSomeAnd args.ignore BytecodeType.is_runtime = false)
    (h_bn : tx.block_number = some bn)
    (h_evm : item.evm_version = Except.ok ev)
    (h_blk : ∀ m, w.provider.get_block m = Except.ok blk)
    (h_nonce : ∀ m, w.provider.get_transaction_count tx.sender m =
      Except.ok nonceVal)
    (h_txto : tx.«to» = none)
    (h_txD : txD = { tx with
      nonce := nonceVal, input := lb ++ ca })
    (h_basic : w.exec.basic (w.exec.deploy_address txD) = some acct)
    (h_rcode : acct.code = some rcode) :
    match args.block with
    | some (BlockId.Number (BlockNumberOrTag.Number nb)) =>
        runVerify args w =
          (Except.ok [⟨BytecodeType.Creation, some mk⟩,
            ⟨BytecodeType.Runtime, w.match_bytecodes rcode code ca true⟩],
           [RunAction.txByHash cd.transaction_hash,
            RunAction.receiptByHash cd.transaction_hash,
            RunAction.forkAt (nb - 1),
            RunAction.nonceQuery tx.sender (nb - 1),
            RunAction.execDeploy (runtimeEnvFor w nb blk) txD])
    | some _ =>
        (runVerify args w).fst =
          Except.error (RunError.fatal "Invalid block number")
    | none =>
        runVerify args w =
          (Except.ok [⟨BytecodeType.Creation, some mk⟩,
            ⟨BytecodeType.Runtime, w.match_bytecodes rcode code ca true⟩],
           [RunAction.txByHash cd.transaction_hash,
            RunAction.receiptByHash cd.transaction_hash,
            RunAction.txByHash cd.transaction_hash,
            RunAction.forkAt (bn - 1),
            RunAction.nonceQuery tx.sender (bn - 1),
            RunAction.execDeploy (runtimeEnvFor w bn blk) txD]) := by
  subst h_txD
  simp only [h_txto, h_bn] at h_basic
  rcases hab : args.block with _ | b
  · simp [runVerify, VerifyBytecodeArgs.run, maybe_predeploy_contract,
      print_result, h_code, h_prov, h_src, h_name, h_art, h_lb, h_provided,
      h_tx, h_rc, h_rcto, h_rcca, h_ca, h_ignc, h_mk, h_runt, hab, h_bn,
      h_evm, h_blk, h_nonce, h_txto, h_basic, h_rcode,
      List.isEmpty_iff, h_ne]
  · rcases b with t | hsh
    · rcases t with nb | _ | _ | _
      · simp [runVerify, VerifyBytecodeArgs.run, maybe_predeploy_contract,
          print_result, h_code, h_prov, h_src, h_name, h_art, h_lb,
          h_provided, h_tx, h_rc, h_rcto, h_rcca, h_ca, h_ignc, h_mk,
          h_runt, hab, h_bn, h_evm, h_blk, h_nonce, h_txto, h_basic, h_rcode,
          List.isEmpty_iff, h_ne]
      · simp [runVerify, VerifyBytecodeArgs.run, maybe_predeploy_contract,
          print_result, h_code, h_prov, h_src, h_name, h_art, h_lb,
          h_provided, h_tx, h_rc, h_rcto, h_rcca, h_ca, h_ignc, h_mk,
          h_runt, hab, List.isEmpty_iff, h_ne]
      · simp [runVerify, VerifyBytecodeArgs.run, maybe_predeploy_contract,
          print_result, h_code, h_prov, h_src, h_name, h_art, h_lb,
          h_provided, h_tx, h_rc, h_rcto, h_rcca, h_ca, h_ignc, h_mk,
          h_runt, hab, List.isEmpty_iff, h_ne]
      · simp [runVerify, VerifyBytecodeArgs.run, maybe_predeploy_contract,
          print_result, h_code, h_prov, h_src, h_name, h_art, h_lb,
          h_provided, h_tx, h_rc, h_rcto, h_rcca, h_ca, h_ignc, h_mk,
          h_runt, hab, List.isEmpty_iff, h_ne]
    · simp [runVerify, VerifyBytecodeArgs.run, maybe_predeploy_contract,
        print_result, h_code, h_prov, h_src, h_name, h_art, h_lb,
        h_provided, h_tx, h_rc, h_rcto, h_rcca, h_ca, h_ignc, h_mk,
        h_runt, hab, List.isEmpty_iff, h_ne]

/-- C10: when a creation transaction's `to` field (as reported in the
receipt, which is what the extraction step at lines 384-394 inspects, the
transaction carrying the same `to`) equals the canonical
deterministic-deployer address but the transaction's input is shorter than
32 bytes, the slicing operation that extracts the creation code
(`input[32..]`) is out of bounds, so the run panics instead of returning a
descriptive fatal error; the abort is the Rust slice panic, raised before
any fork or replay action. -/
theorem create2_short_input_panics (args : VerifyBytecodeArgs) (w : World)
    (code : Bytes) (item : SourceCodeItem) (rest : List SourceCodeItem)
    (artifact : Artifact) (lb : Bytes) (provided : Option Bytes)
    (cd : CreationData) (tx : Transaction) (rc : Receipt)
    (h_code : w.provider.get_code_at args.address none = Except.ok code)
    (h_ne : code ≠ [])
    (h_prov : w.etherscan.contract_creation_data args.address =
      ProvenanceResult.found cd)
    (h_src : w.etherscan.contract_source_code args.address =
      Except.ok (item :: rest))
    (h_name : item.contract_name = args.contract_name)
    (h_art : w.artifact = Except.ok artifact)
    (h_lb : artifact.bytecode = some lb)
    (h_provided : providedConstructorArgs args w artifact = Except.ok provided)
    (h_tx : w.provider.get_transaction_by_hash cd.transaction_hash =
      Except.ok (some tx))
    (h_rc : w.provider.get_transaction_receipt cd.transaction_hash =
      Except.ok (some rc))
    (_h_txto : tx.«to» = some DEFAULT_CREATE2_DEPLOYER)
    (h_rcto : rc.«to» = some DEFAULT_CREATE2_DEPLOYER)
    (h_short : tx.input.length < 32) :
    runVerify args w =
      (Except.error (RunError.panicked "range start index out of range for slice"),
        [RunAction.txByHash cd.transaction_hash,
         RunAction.receiptByHash cd.transaction_hash]) := by
  have h_oob : ¬ (32 ≤ tx.input.length) := by omega
  simp [runVerify, VerifyBytecodeArgs.run, maybe_predeploy_contract,
    rustSliceFrom, h_code, h_prov, h_src, h_name, h_art, h_lb, h_provided,
    h_tx, h_rc, h_rcto, h_oob, List.isEmpty_iff, h_ne]

/-! ## Concrete fixtures used by the witness theorems -/

/-- A sample block header. -/
def sampleHeader : BlockHeader :=
  { timestamp := 1000, miner := 5, difficulty := 2, mix_hash := some 3,
    base_fee_per_gas := some 7, gas_limit := 30000000 }

/-- A sample RPC block. -/
def sampleBlock : Block := { header := sampleHeader }

/-- A sample Etherscan source item reporting constructor args `[9, 9]`. -/
def sampleItem : SourceCodeItem :=
  { contract_name := "C", constructor_arguments := [9, 9],
    evm_version := Except.ok none }

/-- A sample ordinary creation transaction: input is the local bytecode
`[1, 2, 3]` followed by the constructor args `[9, 9]`. -/
def sampleTx : Transaction :=
  { sender := 77, «to» := none, input := [1, 2, 3, 9, 9], nonce := 5,
    block_number := some 100, gas := 0, gas_price := none,
    max_fee_per_gas := none }

/-- The receipt of the sample ordinary creation transaction. -/
def sampleReceipt : Receipt := { «to» := none, contract_address := some 42 }

/-- A sample artifact with creation bytecode `[1, 2, 3]` and a one-parameter
constructor. -/
def sampleArtifact : Artifact :=
  { bytecode := some [1, 2, 3],
    abi := some { constructor := some { inputs := ["uint256"] } } }

/-- A sample world where every collaborator answers successfully. -/
def sampleWorld : World :=
  { provider :=
    { get_code_at := fun _ _ => Except.ok [7, 7]
      get_transaction_by_hash := fun _ => Except.ok (some sampleTx)
      get_transaction_receipt := fun _ => Except.ok (some sampleReceipt)
      get_block := fun _ => Except.ok (some sampleBlock)
      get_transaction_count := fun _ _ => Except.ok 3 }
    etherscan :=
    { contract_creation_data := fun _ =>
        ProvenanceResult.found { transaction_hash := 555, contract_creator := 77 }
      contract_source_code := fun _ => Except.ok [sampleItem] }
    exec :=
    { fork_env := fun n =>
        { block := { number := n, timestamp := 0, coinbase := 0,
                     difficulty := 0, prevrandao := none, basefee := 0,
                     gas_limit := 0 } }
      deploy_address := fun _ => 42
      transact_result := fun _ => List.replicate 20 0
      basic := fun _ => some { code := some [7, 7] } }
    artifact := Except.ok sampleArtifact
    encode_args := fun _ _ => Except.ok [5, 5]
    match_bytecodes := fun _ _ _ _ => some BytecodeMatchKind.Exact }

/-- Sample CLI arguments: no explicit constructor-arg source, literal block. -/
def sampleArgs : VerifyBytecodeArgs :=
  { address := 42, contract_name := "C",
    block := some (BlockId.Number (BlockNumberOrTag.Number 100)),
    constructor_args := none, encoded_constructor_args := none,
    constructor_args_path := none, ignore := none }

/-! ## Witnesses -/

/-- World whose bytecode matcher never reconciles (MatchType None). -/
def worldNoMatch : World :=
  { sampleWorld with match_bytecodes := fun _ _ _ _ => none }

/-- Witness for C1 at a concrete run: the creation comparison yields None,
so the run emits Creation None and Runtime None, succeeds, and the trace
holds only the two lookups. -/
theorem creation_none_short_circuit_witness :
    runVerify sampleArgs worldNoMatch =
      (Except.ok [⟨BytecodeType.Creation, none⟩, ⟨BytecodeType.Runtime, none⟩],
        [RunAction.txByHash 555, RunAction.receiptByHash 555]) :=
  creation_none_short_circuit sampleArgs worldNoMatch [7, 7] sampleItem []
    sampleArtifact [1, 2, 3] none ⟨555, 77⟩ sampleTx sampleReceipt
    [1, 2, 3, 9, 9] [9, 9] rfl (by decide) rfl rfl rfl rfl rfl rfl rfl rfl
    (Or.inl ⟨rfl, rfl, rfl⟩) (by decide) rfl rfl

/-- Arguments supplying both a typed list and pre-encoded hex bytes. -/
def argsBothSources : VerifyBytecodeArgs :=
  { sampleArgs with
    constructor_args := some ["7"]
    encoded_constructor_args := some [4, 4] }

/-- Witness for C2 at a concrete input: with both explicit sources present
the typed list wins (it encodes to `[5, 5]`, the hex bytes `[4, 4]` are
ignored), and an explicit source is never re-derived. -/
theorem constructor_args_precedence_witness :
    providedConstructorArgs argsBothSources sampleWorld sampleArtifact =
      Except.ok (some [5, 5]) ∧
    resolveConstructorArgs (some [5, 5]) [9, 9] [1, 2] [1, 2, 3] = [5, 5] :=
  ⟨(constructor_args_precedence argsBothSources sampleWorld sampleArtifact).1
      ["7"] [5, 5] rfl rfl,
   (constructor_args_precedence argsBothSources sampleWorld sampleArtifact).2.2
      [5, 5] [9, 9] [1, 2] [1, 2, 3]⟩

/-- Arguments supplying a typed list of three values. -/
def argsThreeTyped : VerifyBytecodeArgs :=
  { sampleArgs with constructor_args := some ["1", "2", "3"] }

/-- Artifact whose ABI declares no constructor. -/
def artifactNoCtor : Artifact :=
  { bytecode := some [1, 2, 3], abi := some { constructor := none } }

/-- Witness for C9 at a concrete input: three user values, no declared
constructor, no error, resolved args empty. -/
theorem typed_args_without_constructor_witness :
    providedConstructorArgs argsThreeTyped sampleWorld artifactNoCtor =
      Except.ok (some []) ∧
    (∀ etherscanArgs mcc lb,
      resolveConstructorArgs (some []) etherscanArgs mcc lb = ([] : Bytes)) :=
  typed_args_without_constructor argsThreeTyped sampleWorld artifactNoCtor
    ["1", "2", "3"] rfl (by decide)

/-- Arguments supplying a typed list of two values. -/
def argsTwoTyped : VerifyBytecodeArgs :=
  { sampleArgs with constructor_args := some ["1", "2"] }

/-- Artifact declaring a three-parameter constructor. -/
def artifactThreeParams : Artifact :=
  { bytecode := some [1, 2, 3],
    abi := some { constructor := some ⟨["uint256", "uint256", "uint256"]⟩ } }

/-- World building the three-parameter artifact. -/
def worldThreeParams : World :=
  { sampleWorld with artifact := Except.ok artifactThreeParams }

/-- Witness for C6 at a concrete run: two values against three declared
parameters aborts fatally with an empty action trace. -/
theorem arg_length_mismatch_aborts_witness :
    runVerify argsTwoTyped worldThreeParams =
      (Except.error (RunError.fatal "Mismatch of constructor arguments length"),
        []) :=
  arg_length_mismatch_aborts argsTwoTyped worldThreeParams [7, 7]
    (some ⟨555, 77⟩, false) sampleItem [] artifactThreeParams [1, 2, 3]
    ["1", "2"] ⟨["uint256", "uint256", "uint256"]⟩ rfl (by decide) rfl rfl
    rfl rfl rfl rfl (by decide) (by decide)

/-- World whose provenance service has no creation data for any address. -/
def worldPredeploy : World :=
  { sampleWorld with
    etherscan := { sampleWorld.etherscan with
                   contract_creation_data := fun _ => ProvenanceResult.notFound } }

/-- Witness for C4 at a concrete run: no creation data, so the run succeeds
with a single Runtime result, no transaction/receipt lookup, and a genesis
deployment of the local payload. -/
theorem predeploy_runtime_only_witness :
    runVerify sampleArgs worldPredeploy =
      (Except.ok [⟨BytecodeType.Runtime, some BytecodeMatchKind.Exact⟩],
        [RunAction.forkAt 0,
         RunAction.execDeploy (genesisEnvFor worldPredeploy (some sampleBlock))
           (genesisTransactionFor ([1, 2, 3] ++ [9, 9]) (some sampleBlock))]) ∧
    (genesisTransactionFor ([1, 2, 3] ++ [9, 9]) (some sampleBlock)).input =
      [1, 2, 3] ++ [9, 9] ∧
    (genesisTransactionFor ([1, 2, 3] ++ [9, 9]) (some sampleBlock)).«to» =
      none :=
  predeploy_runtime_only sampleArgs worldPredeploy [7, 7] sampleItem []
    sampleArtifact [1, 2, 3] none none (some sampleBlock) ⟨some [7, 7]⟩ [7, 7]
    rfl (by decide) rfl rfl rfl rfl rfl rfl rfl rfl rfl rfl

/-- A creation transaction sent to the deterministic deployer: 32 salt
bytes followed by the creation payload. -/
def create2Tx : Transaction :=
  { sender := 77, «to» := some DEFAULT_CREATE2_DEPLOYER,
    input := List.replicate 32 0 ++ [1, 2, 3, 9, 9], nonce := 5,
    block_number := some 100, gas := 0, gas_price := none,
    max_fee_per_gas := none }

/-- The receipt of the deterministic-deployer creation transaction. -/
def create2Receipt : Receipt :=
  { «to» := some DEFAULT_CREATE2_DEPLOYER, contract_address := some 42 }

/-- World whose creation transaction went through the deterministic
deployer. -/
def worldCreate2 : World :=
  { sampleWorld with
    provider := { sampleWorld.provider with
                  get_transaction_by_hash := fun _ => Except.ok (some create2Tx)
                  get_transaction_receipt := fun _ =>
                    Except.ok (some create2Receipt) } }

/-- The transaction the deterministic-deployer replay executes: original
salt, locally reconstructed payload, previous-block nonce. -/
def create2Replayed : Transaction :=
  { create2Tx with
    nonce := 3
    input := create2Tx.input.take 32 ++ ([1, 2, 3] ++ [9, 9]) }

/-- Witness for C5 at a concrete run: the replayed input is the original
32-byte salt followed by the local creation payload. -/
theorem create2_salt_preserved_witness :
    runVerify sampleArgs worldCreate2 =
      (Except.ok [⟨BytecodeType.Creation, some BytecodeMatchKind.Exact⟩,
        ⟨BytecodeType.Runtime, some BytecodeMatchKind.Exact⟩],
       [RunAction.txByHash 555, RunAction.receiptByHash 555,
        RunAction.forkAt 99, RunAction.nonceQuery 77 99,
        RunAction.deployCreate2Deployer,
        RunAction.execTransact (runtimeEnvFor worldCreate2 100 (some sampleBlock))
          create2Replayed]) ∧
    create2Replayed.input = create2Tx.input.take 32 ++ ([1, 2, 3] ++ [9, 9]) :=
  create2_salt_preserved sampleArgs worldCreate2 [7, 7] sampleItem []
    sampleArtifact [1, 2, 3] none ⟨555, 77⟩ create2Tx create2Receipt [9, 9]
    BytecodeMatchKind.Exact 100 (some sampleBlock) 3 none create2Replayed
    ⟨some [7, 7]⟩ [7, 7] [7, 7] rfl (by decide) rfl rfl rfl rfl rfl rfl rfl
    rfl rfl (by decide) (by decide) rfl rfl rfl rfl rfl rfl rfl rfl rfl
    (by decide) rfl rfl rfl

/-- The transaction the ordinary-creation replay executes: local payload
as input, previous-block nonce. -/
def ordinaryReplayedTx : Transaction :=
  { sampleTx with nonce := 3, input := [1, 2, 3] ++ [9, 9] }

/-- Witness for C8 at a concrete run: fork pinned to 99 for simulation
block 100, the nonce query at block 99, and the executed transaction
carrying the queried nonce. -/
theorem replay_nonce_from_previous_block_witness :
    runVerify sampleArgs sampleWorld =
      (Except.ok [⟨BytecodeType.Creation, some BytecodeMatchKind.Exact⟩,
        ⟨BytecodeType.Runtime, some BytecodeMatchKind.Exact⟩],
       [RunAction.txByHash 555, RunAction.receiptByHash 555,
        RunAction.forkAt 99, RunAction.nonceQuery 77 99,
        RunAction.execDeploy (runtimeEnvFor sampleWorld 100 (some sampleBlock))
          ordinaryReplayedTx]) ∧
    ordinaryReplayedTx.nonce = 3 :=
  replay_nonce_from_previous_block sampleArgs sampleWorld [7, 7] sampleItem []
    sampleArtifact [1, 2, 3] none ⟨555, 77⟩ sampleTx sampleReceipt [9, 9]
    BytecodeMatchKind.Exact 100 (some sampleBlock) 3 none ordinaryReplayedTx
    ⟨some [7, 7]⟩ [7, 7] [7, 7] rfl (by decide) rfl rfl rfl rfl rfl rfl rfl
    rfl rfl rfl (by decide) rfl rfl rfl rfl rfl rfl rfl rfl rfl rfl rfl rfl

/-- Arguments supplying a non-literal block reference (`latest`). -/
def argsLatestBlock : VerifyBytecodeArgs :=
  { sampleArgs with block := some (BlockId.Number BlockNumberOrTag.Latest) }

/-- Witness for C7 at a concrete run: a non-literal block reference aborts
with the fatal "Invalid block number" error. -/
theorem simulation_block_determination_witness :
    (runVerify argsLatestBlock sampleWorld).fst =
      Except.error (RunError.fatal "Invalid block number") :=
  simulation_block_determination argsLatestBlock sampleWorld [7, 7] sampleItem
    [] sampleArtifact [1, 2, 3] none ⟨555, 77⟩ sampleTx sampleReceipt [9, 9]
    BytecodeMatchKind.Exact 100 (some sampleBlock) 3 none ordinaryReplayedTx
    ⟨some [7, 7]⟩ [7, 7] (fun _ => rfl) (by decide) rfl rfl rfl rfl rfl rfl
    rfl rfl rfl rfl (by decide) rfl rfl rfl rfl rfl (fun _ => rfl)
    (fun _ => rfl) rfl rfl rfl rfl

/-- A deterministic-deployer creation transaction whose input is shorter
than the 32-byte salt. -/
def shortCreate2Tx : Transaction :=
  { sender := 77, «to» := some DEFAULT_CREATE2_DEPLOYER, input := [1, 2],
    nonce := 5, block_number := some 100, gas := 0, gas_price := none,
    max_fee_per_gas := none }

/-- World whose deterministic-deployer creation transaction has a 2-byte
input. -/
def worldShortCreate2 : World :=
  { sampleWorld with
    provider := { sampleWorld.provider with
                  get_transaction_by_hash := fun _ =>
                    Except.ok (some shortCreate2Tx)
                  get_transaction_receipt := fun _ =>
                    Except.ok (some create2Receipt) } }

/-- Witness for C10 at a concrete run: the 2-byte input makes the
`input[32..]` slice panic right after the receipt lookup. -/
theorem create2_short_input_panics_witness :
    runVerify sampleArgs worldShortCreate2 =
      (Except.error (RunError.panicked "range start index out of range for slice"),
        [RunAction.txByHash 555, RunAction.receiptByHash 555]) :=
  create2_short_input_panics sampleArgs worldShortCreate2 [7, 7] sampleItem []
    sampleArtifact [1, 2, 3] none ⟨555, 77⟩ shortCreate2Tx create2Receipt
    rfl (by decide) rfl rfl rfl rfl rfl rfl rfl rfl rfl rfl (by decide)
